import Mathlib

/-!
# arbitrum-claim: a shallow embedding of `main.go`

The program has four functions: `main`, `Subscribing`, `Claim` and `Transfer`.
Everything they reach outside the file (the crypto helpers, the chain client,
the contract bindings, the process environment, the header subscription) is a
field of an explicit environment record, and every function returns what the
Go function returns together with the ordered list of the outside calls it
made.  Goroutines started by a `go` statement are recorded as launched tasks;
their bodies are the functions `Claim` and `Transfer` below.
-/

namespace ArbitrumClaim

/-! ## Data model -/

/-- The `Config` struct. -/
structure Config where
  ContractAddressArbitrum : String
  ContractAddressArbitrumProxy : String
  ContractAddressTokenDistributor : String
  WalletPrivateKeys : List String
  EthRpcHttp : String
  EthRpcWss : String
  ArbRpcHttp : String
  ArbRpcWss : String
  ReceiveAddress : String
  TargetBlockNo : String
deriving DecidableEq, Repr

/-- A `common.Address`, named by the hex text it was made from. -/
structure Address where
  hex : String
deriving DecidableEq, Repr

/-- The call `common.HexToAddress`. -/
def HexToAddress (s : String) : Address := ⟨s⟩

/-- The four fields of `bind.TransactOpts` that `Claim` and `Transfer` fill in. -/
structure TransactOpts where
  From : Address
  Signer : Nat
  GasLimit : Nat
  GasPrice : Nat
deriving DecidableEq, Repr

/-- What a Go call of type `(T, error)` hands back. -/
inductive Result (α : Type) where
  | ok (v : α)
  | err (msg : String)
deriving DecidableEq, Repr

/-- The first component of a `(T, error)` pair when the error is thrown away
with `_`: the value on success, `nil` on failure. -/
def Result.value {α : Type} : Result α → Option α
  | .ok v => some v
  | .err _ => none

/-- Whether a returned `error` is non-nil. -/
def Result.isErr {α : Type} : Result α → Bool
  | .ok _ => false
  | .err _ => true

/-- Everything `Claim` and `Transfer` call outside `main.go`.
Private keys, public keys and signers are named by numbers. -/
structure Chain where
  /-- The call `crypto.HexToECDSA`. -/
  HexToECDSA : String → Result Nat
  /-- The type assertion `privateKey.Public().(*ecdsa.PublicKey)`. -/
  PublicECDSA : Nat → Option Nat
  /-- The call `crypto.PubkeyToAddress`. -/
  PubkeyToAddress : Nat → Address
  /-- The call `client.ChainID`. -/
  ChainID : Result Nat
  /-- The call `bind.NewKeyedTransactorWithChainID`, on a key and a chain id
  that may be `nil`; on success the `Signer` of the transactor. -/
  NewKeyedTransactorWithChainID : Nat → Option Nat → Result Nat
  /-- The binding `arbitrumContractProxy.BalanceOf`. -/
  BalanceOf : Address → Result Nat
  /-- The binding `distributorContract.Claim`; on success the transaction hash. -/
  ClaimTx : TransactOpts → Result String
  /-- The binding `arbitrumContractProxy.Transfer`; on success the transaction hash. -/
  TransferTx : TransactOpts → Address → Nat → Result String

/-- The outside effects of one `Claim` or `Transfer` call, in program order. -/
inductive Call where
  | pubkeyToAddress (pub : Nat)
  | chainID
  | balanceOf (owner : Address)
  | claim (opts : TransactOpts)
  | transfer (opts : TransactOpts) (recipient : Address) (amount : Nat)
  | logClaim (wallet : Address) (txHash : String)
  | logTransfer (sender : Address) (recipient : Address) (amount : Nat)
  | logTransferTx (txHash : String)
deriving DecidableEq, Repr

/-- The words of a `big.Int` as `balance.Bits()` returns them (64-bit words,
least significant first, no leading zero word). -/
def Bits (n : Nat) : List Nat := Nat.digits (2 ^ 64) n

/-! ## `Claim` and `Transfer` -/

/-- The function `Claim` (lines 164-216). -/
def Claim (client : Chain) (hexkey : String) : Result Unit × List Call :=
  match client.HexToECDSA hexkey with
  | .err e => (.err e, [])
  | .ok privateKey =>
    match client.PublicECDSA privateKey with
    | none => (.err "Error casting public key to ECDSA", [])
    | some publicKeyECDSA =>
      let fromAddress := client.PubkeyToAddress publicKeyECDSA
      let chainID := client.ChainID.value
      match client.NewKeyedTransactorWithChainID privateKey chainID with
      | .err e => (.err e, [.pubkeyToAddress publicKeyECDSA, .chainID])
      | .ok signer =>
        let txOptions : TransactOpts :=
          { From := fromAddress, Signer := signer, GasLimit := 300000, GasPrice := 20 * 10 ^ 9 }
        match client.ClaimTx txOptions with
        | .err e => (.err e, [.pubkeyToAddress publicKeyECDSA, .chainID, .claim txOptions])
        | .ok tx =>
          (.ok (), [.pubkeyToAddress publicKeyECDSA, .chainID, .claim txOptions,
                    .logClaim fromAddress tx])

/-- The function `Transfer` (lines 218-280). -/
def Transfer (client : Chain) (hexkey : String) (receiveAddress : Address) :
    Result Unit × List Call :=
  match client.HexToECDSA hexkey with
  | .err e => (.err e, [])
  | .ok privateKey =>
    match client.PublicECDSA privateKey with
    | none => (.err "Error casting public key to ECDSA", [])
    | some publicKeyECDSA =>
      let fromAddress := client.PubkeyToAddress publicKeyECDSA
      let chainID := client.ChainID.value
      match client.NewKeyedTransactorWithChainID privateKey chainID with
      | .err e => (.err e, [.pubkeyToAddress publicKeyECDSA, .chainID])
      | .ok signer =>
        let txOptions : TransactOpts :=
          { From := fromAddress, Signer := signer, GasLimit := 300000, GasPrice := 20 * 10 ^ 9 }
        match client.BalanceOf receiveAddress with
        | .err e =>
          (.err e, [.pubkeyToAddress publicKeyECDSA, .chainID, .balanceOf receiveAddress])
        | .ok balance =>
          if (Bits balance).length = 0 then
            (.err "blanace is zero",
              [.pubkeyToAddress publicKeyECDSA, .chainID, .balanceOf receiveAddress,
               .logTransfer fromAddress receiveAddress balance])
          else
            match client.TransferTx txOptions receiveAddress balance with
            | .err e =>
              (.err e,
                [.pubkeyToAddress publicKeyECDSA, .chainID, .balanceOf receiveAddress,
                 .logTransfer fromAddress receiveAddress balance,
                 .transfer txOptions receiveAddress balance])
            | .ok tx =>
              (.ok (),
                [.pubkeyToAddress publicKeyECDSA, .chainID, .balanceOf receiveAddress,
                 .logTransfer fromAddress receiveAddress balance,
                 .transfer txOptions receiveAddress balance, .logTransferTx tx])

/-! ## Goroutine launches -/

/-- A call handed to a `go` statement. -/
inductive Task where
  | Claim (hexkey : String)
  | Transfer (hexkey : String) (receiveAddress : Address)
deriving DecidableEq, Repr

/-- What a run of `go` statements leaves behind: the goroutines started, in
order, and the submission results handed back to the launching code. -/
structure Batch where
  launched : List Task
  collected : List (Result Unit)
deriving DecidableEq, Repr

/-- One `go f(...)` statement: the call is started in a new goroutine and the
statement itself yields nothing; the `error` the call returns is dropped. -/
def goStmt (t : Task) : Batch := { launched := [t], collected := [] }

/-- The loop `for _, v := range keys { go f(v) }` (lines 105-108, 111-114,
147-150, 155-158). -/
def rangeGo (keys : List String) (f : String → Task) : Batch :=
  keys.foldl
    (fun b v =>
      { launched := b.launched ++ (goStmt (f v)).launched,
        collected := b.collected ++ (goStmt (f v)).collected })
    { launched := [], collected := [] }

/-! ## `Subscribing` -/

/-- The call `strconv.ParseUint(s, 10, 64)`: a non-empty run of decimal digits
whose value fits 64 bits; `none` stands for a returned error. -/
def ParseUint (s : String) : Option Nat :=
  let cs := s.toList
  if cs = [] then none
  else if cs.all Char.isDigit then
    let n := cs.foldl (fun a c => 10 * a + (c.toNat - 48)) 0
    if n < 2 ^ 64 then some n else none
  else none

/-- One thing the `select` of the watcher loop receives. -/
inductive HeadEvent where
  /-- A value on `sub.Err()`. -/
  | subErr (err : String)
  /-- A header on `headers`, with what `clientEth.BlockByHash` answers for it:
  the block number (a `big.Int`) or an error. -/
  | header (block : Result Nat)
deriving DecidableEq, Repr

/-- What the main goroutine does, in program order. -/
inductive Event where
  | godotenvLoad
  | dial (url : String)
  | newArbitrumProxy (addr : Address)
  | newTokenDistributor (addr : Address)
  | logMode (mode : String)
  | subscribeNewHead
  | blockByHash
  | logNewBlock (number : Nat)
  /-- The line "Starting Claim block number" with the number printed, and the
  goroutines the loop after it starts. -/
  | startingClaim (number : Nat) (launched : List Task)
  | go (t : Task)
deriving DecidableEq, Repr

/-- How the main goroutine ends. -/
inductive Exit where
  /-- The call `log.Fatal` with the "Choose mode" text. -/
  | usage
  /-- Any other `log.Fatal` or `log.Fatalf`. -/
  | fatal (err : String)
  /-- A run-time panic. -/
  | panic (err : String)
  /-- The function `main` returned. -/
  | returned
  /-- Blocked in `select`: every event delivered so far has been handled. -/
  | waiting
deriving DecidableEq, Repr

/-- The body of `case header := <-headers` after a successful `BlockByHash`
(lines 142-159); `number` is `block.Number()` and `targetBlockNo` a `uint64`. -/
def onBlock (targetBlockNo : Nat) (keys : List String) (number : Nat) : List Event :=
  let h := number % 2 ^ 64
  [Event.blockByHash, Event.logNewBlock h] ++
    (if h = targetBlockNo then
      [Event.startingClaim targetBlockNo (rangeGo keys Task.Claim).launched]
    else if h = (targetBlockNo + 1) % 2 ^ 64 then
      [Event.startingClaim ((targetBlockNo + 1) % 2 ^ 64) (rangeGo keys Task.Claim).launched]
    else [])

/-- The `for { select { ... } }` loop of `Subscribing` (lines 133-161) over the
events delivered so far. -/
def SubscribingLoop (targetBlockNo : Nat) (keys : List String) :
    List HeadEvent → Exit × List Event
  | [] => (.waiting, [])
  | .subErr e :: _ => (.fatal e, [])
  | .header (.err e) :: _ => (.fatal e, [.blockByHash])
  | .header (.ok number) :: rest =>
    let r := SubscribingLoop targetBlockNo keys rest
    (r.1, onBlock targetBlockNo keys number ++ r.2)

/-- The process environment of `main`. -/
structure Host where
  /-- The call `godotenv.Load`. -/
  godotenvLoad : Result Unit
  /-- The `Config` literal built from `os.Getenv`. -/
  config : Config
  /-- The call `ethclient.Dial`. -/
  Dial : String → Result Unit
  /-- The call `proxy.NewArbitrumProxy`. -/
  NewArbitrumProxy : Address → Result Unit
  /-- The call `distributor.NewTokenDistributor`. -/
  NewTokenDistributor : Address → Result Unit
  /-- The call `clientEth.SubscribeNewHead`. -/
  SubscribeNewHead : Result Unit
  /-- What the subscription delivers, in order. -/
  heads : List HeadEvent

/-- The function `Subscribing` (lines 119-162). -/
def Subscribing (host : Host) (config : Config) : Exit × List Event :=
  match host.SubscribeNewHead with
  | .err e => (.fatal e, [.subscribeNewHead])
  | .ok _ =>
    match ParseUint config.TargetBlockNo with
    | none => (.panic "strconv.ParseUint", [.subscribeNewHead])
    | some targetBlockNo =>
      let r := SubscribingLoop targetBlockNo config.WalletPrivateKeys host.heads
      (r.1, Event.subscribeNewHead :: r.2)

/-- The function `main` (lines 41-117) on `os.Args`. -/
def main (args : List String) (host : Host) : Exit × List Event :=
  if args.length = 2 then (.usage, [])
  else
    match args[2]? with
    | none => (.panic "index out of range [2]", [])
    | some mode =>
      match host.godotenvLoad with
      | .err e => (.fatal e, [.godotenvLoad])
      | .ok _ =>
        let config := host.config
        match host.Dial config.EthRpcWss with
        | .err e => (.fatal e, [.godotenvLoad, .dial config.EthRpcWss])
        | .ok _ =>
          match host.Dial config.ArbRpcHttp with
          | .err e => (.fatal e, [.godotenvLoad, .dial config.EthRpcWss, .dial config.ArbRpcHttp])
          | .ok _ =>
            match host.NewArbitrumProxy (HexToAddress config.ContractAddressArbitrumProxy) with
            | .err e =>
              (.fatal e,
                [.godotenvLoad, .dial config.EthRpcWss, .dial config.ArbRpcHttp,
                 .newArbitrumProxy (HexToAddress config.ContractAddressArbitrumProxy)])
            | .ok _ =>
              match host.NewTokenDistributor
                  (HexToAddress config.ContractAddressTokenDistributor) with
              | .err e =>
                (.fatal e,
                  [.godotenvLoad, .dial config.EthRpcWss, .dial config.ArbRpcHttp,
                   .newArbitrumProxy (HexToAddress config.ContractAddressArbitrumProxy),
                   .newTokenDistributor (HexToAddress config.ContractAddressTokenDistributor)])
              | .ok _ =>
                let setup : List Event :=
                  [.godotenvLoad, .dial config.EthRpcWss, .dial config.ArbRpcHttp,
                   .newArbitrumProxy (HexToAddress config.ContractAddressArbitrumProxy),
                   .newTokenDistributor (HexToAddress config.ContractAddressTokenDistributor)]
                if mode = "live" then
                  let r := Subscribing host config
                  (r.1, setup ++ [Event.logMode "Live"] ++ r.2)
                else if mode = "claim" then
                  (.returned,
                    setup ++ [Event.logMode "Claim"] ++
                      (rangeGo config.WalletPrivateKeys Task.Claim).launched.map Event.go)
                else if mode = "transfer" then
                  (.returned,
                    setup ++ [Event.logMode "Transfer"] ++
                      (rangeGo config.WalletPrivateKeys
                        (fun v => Task.Transfer v (HexToAddress config.ReceiveAddress))).launched.map
                        Event.go)
                else (.returned, setup)

/-! ## Observations on a run -/

/-- The dispatch events of a run: the block number announced and the
goroutines launched for it. -/
def dispatches : List Event → List (Nat × List Task)
  | [] => []
  | .startingClaim n ts :: rest => (n, ts) :: dispatches rest
  | _ :: rest => dispatches rest

/-- Whether an event is a network connection or a contract binding. -/
def Event.isConnection : Event → Bool
  | .dial _ => true
  | .newArbitrumProxy _ => true
  | .newTokenDistributor _ => true
  | _ => false

/-- Whether a call broadcasts a transaction. -/
def Call.isBroadcast : Call → Bool
  | .claim _ => true
  | .transfer _ _ _ => true
  | _ => false

/-- Whether a call is a balance query. -/
def Call.isBalanceQuery : Call → Bool
  | .balanceOf _ => true
  | _ => false

/-- A header stream in which every header resolves to a block of the given number. -/
def okStream (heights : List Nat) : List HeadEvent :=
  heights.map (fun h => HeadEvent.header (.ok h))

/-- A chain on which the wallet key "aa" is valid, its address "0xA" holds 5
tokens and the address "0xR" holds 7. -/
def demoChain : Chain where
  HexToECDSA := fun s => if s = "aa" then .ok 1 else .err "invalid hex string"
  PublicECDSA := fun k => some (k + 100)
  PubkeyToAddress := fun _ => ⟨"0xA"⟩
  ChainID := .ok 42161
  NewKeyedTransactorWithChainID := fun k id =>
    match id with
    | none => .err "no chain id specified"
    | some _ => .ok k
  BalanceOf := fun a => if a = ⟨"0xA"⟩ then .ok 5 else if a = ⟨"0xR"⟩ then .ok 7 else .ok 0
  ClaimTx := fun _ => .ok "0xc1"
  TransferTx := fun _ _ _ => .ok "0xf1"

/-- The chain `demoChain` with an unreachable node: the chain-id lookup fails. -/
def downChain : Chain := { demoChain with ChainID := .err "connection refused" }

/-- The events of `main` between reading the mode and inspecting it, when every
step succeeds (lines 59-98). -/
def setupEvents (config : Config) : List Event :=
  [.godotenvLoad, .dial config.EthRpcWss, .dial config.ArbRpcHttp,
   .newArbitrumProxy (HexToAddress config.ContractAddressArbitrumProxy),
   .newTokenDistributor (HexToAddress config.ContractAddressTokenDistributor)]

/-- Whether an event starts a mode: the watcher subscription or a goroutine. -/
def Event.startsMode : Event → Bool
  | .subscribeNewHead => true
  | .startingClaim _ _ => true
  | .go _ => true
  | _ => false

/-- A configuration with two wallet keys and the target block 100. -/
def demoConfig : Config where
  ContractAddressArbitrum := "0xARB"
  ContractAddressArbitrumProxy := "0xPROXY"
  ContractAddressTokenDistributor := "0xDIST"
  WalletPrivateKeys := ["k1", "k2"]
  EthRpcHttp := "http://eth"
  EthRpcWss := "wss://eth"
  ArbRpcHttp := "http://arb"
  ArbRpcWss := "wss://arb"
  ReceiveAddress := "0xR"
  TargetBlockNo := "100"

/-- A host on which every start-up step succeeds and the subscription
delivers the blocks 99, 100 and 101. -/
def demoHost : Host where
  godotenvLoad := .ok ()
  config := demoConfig
  Dial := fun _ => .ok ()
  NewArbitrumProxy := fun _ => .ok ()
  NewTokenDistributor := fun _ => .ok ()
  SubscribeNewHead := .ok ()
  heads := okStream [99, 100, 101]

/-! ## Lemmas -/

theorem Bits_length_eq_zero_iff (n : Nat) : (Bits n).length = 0 ↔ n = 0 := by
  unfold Bits
  rw [List.length_eq_zero]
  exact Nat.digits_eq_nil_iff_eq_zero

theorem rangeGo_fold (f : String → Task) (keys : List String) (b : Batch) :
    keys.foldl
        (fun b v =>
          ({ launched := b.launched ++ (goStmt (f v)).launched,
             collected := b.collected ++ (goStmt (f v)).collected } : Batch))
        b =
      { launched := b.launched ++ keys.map f, collected := b.collected } := by
  induction keys generalizing b with
  | nil => simp
  | cons k ks ih =>
    rw [List.foldl_cons, ih]
    simp [goStmt]

theorem rangeGo_launched (keys : List String) (f : String → Task) :
    (rangeGo keys f).launched = keys.map f := by
  simp [rangeGo, rangeGo_fold]

theorem rangeGo_collected (keys : List String) (f : String → Task) :
    (rangeGo keys f).collected = [] := by
  simp [rangeGo, rangeGo_fold]

theorem dispatches_append (a b : List Event) :
    dispatches (a ++ b) = dispatches a ++ dispatches b := by
  induction a with
  | nil => simp [dispatches]
  | cons e es ih => cases e <;> simp [dispatches, ih]

/-- The dispatch events of one loop iteration on a block number that fits 64 bits. -/
theorem dispatches_onBlock (T : Nat) (keys : List String) (h : Nat) (hh : h < 2 ^ 64) :
    dispatches (onBlock T keys h) =
      if h = T ∨ h = (T + 1) % 2 ^ 64 then [(h, keys.map Task.Claim)] else [] := by
  have hmod : h % 2 ^ 64 = h := Nat.mod_eq_of_lt hh
  unfold onBlock
  simp only [hmod, rangeGo_launched]
  by_cases h1 : h = T
  · subst h1
    rw [if_pos rfl, if_pos (Or.inl rfl)]
    rfl
  · by_cases h2 : h = (T + 1) % 2 ^ 64
    · rw [if_neg h1, if_pos h2, if_pos (Or.inr h2), ← h2]
      rfl
    · rw [if_neg h1, if_neg h2, if_neg (not_or.2 ⟨h1, h2⟩)]
      rfl

/-- The dispatch events of the loop over a stream of resolvable headers: one
per header whose number is the target or the retry number. -/
theorem dispatches_loop_okStream (T : Nat) (keys : List String) (hs : List Nat)
    (hb : ∀ h ∈ hs, h < 2 ^ 64) :
    dispatches (SubscribingLoop T keys (okStream hs)).2 =
      (hs.filter (fun h => decide (h = T ∨ h = (T + 1) % 2 ^ 64))).map
        (fun h => (h, keys.map Task.Claim)) := by
  induction hs with
  | nil => simp [okStream, SubscribingLoop, dispatches]
  | cons h hs ih =>
    have hh : h < 2 ^ 64 := hb h (List.mem_cons_self _ _)
    have ih2 := ih (fun x hx => hb x (List.mem_cons_of_mem _ hx))
    have hstep : (SubscribingLoop T keys (okStream (h :: hs))).2 =
        onBlock T keys h ++ (SubscribingLoop T keys (okStream hs)).2 := rfl
    rw [hstep, dispatches_append, dispatches_onBlock T keys h hh, ih2]
    by_cases hc : h = T ∨ h = (T + 1) % 2 ^ 64
    · rw [if_pos hc, List.filter_cons_of_pos (by simpa using hc)]
      rfl
    · rw [if_neg hc, List.filter_cons_of_neg (by simpa using hc)]
      rfl

/-- The heights announced by the dispatch events of the loop. -/
theorem dispatch_heights_okStream (T : Nat) (keys : List String) (hs : List Nat)
    (hb : ∀ h ∈ hs, h < 2 ^ 64) :
    (dispatches (SubscribingLoop T keys (okStream hs)).2).map Prod.fst =
      hs.filter (fun h => decide (h = T ∨ h = (T + 1) % 2 ^ 64)) := by
  rw [dispatches_loop_okStream T keys hs hb, List.map_map]
  simp [Function.comp_def]

/-- A strictly increasing list that holds both `T` and `T + 1` has exactly
these two, in this order, among its entries equal to one of them. -/
theorem filter_target_sorted (T : Nat) (hs : List Nat) (hp : hs.Pairwise (· < ·))
    (h1 : T ∈ hs) (h2 : T + 1 ∈ hs) :
    hs.filter (fun h => decide (h = T ∨ h = T + 1)) = [T, T + 1] := by
  have s1 : (hs.filter (fun h => decide (h = T ∨ h = T + 1))).Sorted (· < ·) :=
    List.Pairwise.filter _ hp
  have s2 : [T, T + 1].Sorted (· < ·) := by simp [List.Sorted]
  have hperm : (hs.filter (fun h => decide (h = T ∨ h = T + 1))).Perm [T, T + 1] := by
    rw [List.perm_ext_iff_of_nodup s1.nodup s2.nodup]
    intro a
    simp only [List.mem_filter, decide_eq_true_eq, List.mem_cons, List.mem_singleton,
      List.not_mem_nil, or_false]
    constructor
    · exact fun h => h.2
    · rintro (rfl | rfl)
      · exact ⟨h1, Or.inl rfl⟩
      · exact ⟨h2, Or.inr rfl⟩
  exact List.eq_of_perm_of_sorted hperm s1 s2

/-- The dispatch events of one loop iteration on any block number: the
comparison is on the number read as a `uint64`. -/
theorem dispatches_onBlock_uint64 (T : Nat) (keys : List String) (n : Nat) :
    dispatches (onBlock T keys n) =
      if n % 2 ^ 64 = T ∨ n % 2 ^ 64 = (T + 1) % 2 ^ 64 then
        [(n % 2 ^ 64, keys.map Task.Claim)]
      else [] := by
  unfold onBlock
  simp only [rangeGo_launched]
  by_cases h1 : n % 2 ^ 64 = T
  · rw [if_pos h1, if_pos (Or.inl h1), h1]
    rfl
  · by_cases h2 : n % 2 ^ 64 = (T + 1) % 2 ^ 64
    · rw [if_neg h1, if_pos h2, if_pos (Or.inr h2), ← h2]
      rfl
    · rw [if_neg h1, if_neg h2, if_neg (not_or.2 ⟨h1, h2⟩)]
      rfl

/-- The heights announced by the dispatch events of the loop over any stream
of resolvable headers: the `uint64` block numbers, in delivery order, that
equal the target or the retry number. -/
theorem dispatch_heights_uint64 (T : Nat) (keys : List String) (hs : List Nat) :
    (dispatches (SubscribingLoop T keys (okStream hs)).2).map Prod.fst =
      (hs.map (fun n => n % 2 ^ 64)).filter
        (fun h => decide (h = T ∨ h = (T + 1) % 2 ^ 64)) := by
  induction hs with
  | nil => rfl
  | cons n ns ih =>
    have hstep : (SubscribingLoop T keys (okStream (n :: ns))).2 =
        onBlock T keys n ++ (SubscribingLoop T keys (okStream ns)).2 := rfl
    rw [hstep, dispatches_append, List.map_append, ih, dispatches_onBlock_uint64 T keys n,
      List.map_cons]
    by_cases hc : n % 2 ^ 64 = T ∨ n % 2 ^ 64 = (T + 1) % 2 ^ 64
    · rw [if_pos hc, List.filter_cons_of_pos (by simpa using hc)]
      rfl
    · rw [if_neg hc, List.filter_cons_of_neg (by simpa using hc)]
      rfl

/-- A target that `ParseUint` accepts fits 64 bits. -/
theorem ParseUint_lt (s : String) (T : Nat) (h : ParseUint s = some T) : T < 2 ^ 64 := by
  unfold ParseUint at h
  simp only at h
  split_ifs at h with h1 h2 h3
  cases h
  exact h3

/-- The function `Subscribing` on `demoHost`: the subscription succeeds, the
target parses to 100, and the blocks 100 and 101 each start a dispatch. -/
theorem Subscribing_demoHost :
    ParseUint "100" = some 100 ∧
      (Subscribing demoHost demoConfig).1 = Exit.waiting ∧
      dispatches (Subscribing demoHost demoConfig).2 =
        [(100, [Task.Claim "k1", Task.Claim "k2"]), (101, [Task.Claim "k1", Task.Claim "k2"])] := by
  decide

/-! ## Claims on `Claim` and `Transfer` -/

/-- C9: when `crypto.HexToECDSA` rejects the key string, `Claim` and `Transfer`
return that error and make no outside call at all: no address is derived, and
there is no chain-id query, no balance query and no broadcast. -/
theorem C9_invalid_key (client : Chain) (hexkey : String) (receiveAddress : Address)
    (e : String) (hkey : client.HexToECDSA hexkey = .err e) :
    Claim client hexkey = (.err e, []) ∧
      Transfer client hexkey receiveAddress = (.err e, []) := by
  constructor
  · simp [Claim, hkey]
  · simp [Transfer, hkey]

/-- Witness for C9: at the key "zz" on `demoChain`. -/
theorem C9_invalid_key_witness :
    demoChain.HexToECDSA "zz" = .err "invalid hex string" ∧
      Claim demoChain "zz" = (.err "invalid hex string", []) ∧
      Transfer demoChain "zz" ⟨"0xR"⟩ = (.err "invalid hex string", []) :=
  ⟨by decide, C9_invalid_key demoChain "zz" ⟨"0xR"⟩ "invalid hex string" (by decide)⟩

/-- C8: when the chain-id lookup fails, so that the chain id handed to
`bind.NewKeyedTransactorWithChainID` is `nil`, and that constructor rejects a
`nil` chain id (as go-ethereum does), `Claim` and `Transfer` return an error
and neither makes a balance query or a broadcast. -/
theorem C8_chain_id_failure (client : Chain) (hexkey : String) (receiveAddress : Address)
    (e : String) (hid : client.ChainID = .err e)
    (hnil : ∀ k, (client.NewKeyedTransactorWithChainID k none).isErr = true) :
    (Claim client hexkey).1.isErr = true ∧
      (Transfer client hexkey receiveAddress).1.isErr = true ∧
      (∀ c ∈ (Claim client hexkey).2, c.isBroadcast = false ∧ c.isBalanceQuery = false) ∧
      (∀ c ∈ (Transfer client hexkey receiveAddress).2,
        c.isBroadcast = false ∧ c.isBalanceQuery = false) := by
  have key : ∀ k, ∃ m, client.NewKeyedTransactorWithChainID k none = .err m := by
    intro k
    have h := hnil k
    cases hk : client.NewKeyedTransactorWithChainID k none with
    | ok v => rw [hk] at h; simp [Result.isErr] at h
    | err m => exact ⟨m, rfl⟩
  cases h1 : client.HexToECDSA hexkey with
  | err m => simp [Claim, Transfer, h1, Result.isErr]
  | ok privateKey =>
    cases h2 : client.PublicECDSA privateKey with
    | none => simp [Claim, Transfer, h1, h2, Result.isErr]
    | some pub =>
      obtain ⟨m, hm⟩ := key privateKey
      simp [Claim, Transfer, h1, h2, hid, Result.value, hm, Result.isErr, Call.isBroadcast,
        Call.isBalanceQuery]

/-- Witness for C8: at the valid key "aa" on `downChain`. -/
theorem C8_chain_id_failure_witness :
    downChain.ChainID = .err "connection refused" ∧
      (∀ k, (downChain.NewKeyedTransactorWithChainID k none).isErr = true) ∧
      (Claim downChain "aa").1.isErr = true ∧
      (Transfer downChain "aa" ⟨"0xR"⟩).1.isErr = true ∧
      (∀ c ∈ (Claim downChain "aa").2, c.isBroadcast = false ∧ c.isBalanceQuery = false) ∧
      (∀ c ∈ (Transfer downChain "aa" ⟨"0xR"⟩).2,
        c.isBroadcast = false ∧ c.isBalanceQuery = false) :=
  ⟨rfl, fun _ => rfl,
    C8_chain_id_failure downChain "aa" ⟨"0xR"⟩ "connection refused" rfl (fun _ => rfl)⟩

/-- C5: when the balance that `Transfer` queries (the one `BalanceOf` reports
for the address passed to it) is exactly zero, `Transfer` returns an error,
its calls contain no broadcast, and once the balance query has been made the
error is the zero-balance one. -/
theorem C5_zero_balance (client : Chain) (hexkey : String) (receiveAddress : Address)
    (hzero : client.BalanceOf receiveAddress = .ok 0) :
    (Transfer client hexkey receiveAddress).1.isErr = true ∧
      (Transfer client hexkey receiveAddress).2.countP Call.isBroadcast = 0 ∧
      (Call.balanceOf receiveAddress ∈ (Transfer client hexkey receiveAddress).2 →
        (Transfer client hexkey receiveAddress).1 = .err "blanace is zero") := by
  cases h1 : client.HexToECDSA hexkey with
  | err m => simp [Transfer, h1, Result.isErr]
  | ok privateKey =>
    cases h2 : client.PublicECDSA privateKey with
    | none => simp [Transfer, h1, h2, Result.isErr]
    | some pub =>
      cases h3 : client.NewKeyedTransactorWithChainID privateKey client.ChainID.value with
      | err m => simp [Transfer, h1, h2, h3, Result.isErr, Call.isBroadcast, List.countP_cons]
      | ok signer =>
        simp [Transfer, h1, h2, h3, hzero, Bits, Result.isErr, Call.isBroadcast,
          List.countP_cons]

/-- Witness for C5: at the key "aa" on `demoChain`, for a receive
address that holds nothing. -/
theorem C5_zero_balance_witness :
    demoChain.BalanceOf ⟨"0xE"⟩ = .ok 0 ∧
      (Transfer demoChain "aa" ⟨"0xE"⟩).1.isErr = true ∧
      (Transfer demoChain "aa" ⟨"0xE"⟩).2.countP Call.isBroadcast = 0 ∧
      (Call.balanceOf ⟨"0xE"⟩ ∈ (Transfer demoChain "aa" ⟨"0xE"⟩).2 →
        (Transfer demoChain "aa" ⟨"0xE"⟩).1 = .err "blanace is zero") :=
  ⟨by decide, C5_zero_balance demoChain "aa" ⟨"0xE"⟩ (by decide)⟩

/-- C4: on `demoChain` the sender "0xA" holds 5 tokens and the receive address
"0xR" holds 7; `Transfer` queries the balance of "0xR", never that of "0xA",
and submits a transfer of 7 tokens to "0xR". -/
theorem C4_transfer_queries_receiver :
    demoChain.BalanceOf ⟨"0xA"⟩ = .ok 5 ∧
      Transfer demoChain "aa" ⟨"0xR"⟩ =
        (.ok (),
          [.pubkeyToAddress 101, .chainID, .balanceOf ⟨"0xR"⟩,
           .logTransfer ⟨"0xA"⟩ ⟨"0xR"⟩ 7,
           .transfer ⟨⟨"0xA"⟩, 1, 300000, 20000000000⟩ ⟨"0xR"⟩ 7,
           .logTransferTx "0xf1"]) ∧
      Call.balanceOf ⟨"0xA"⟩ ∉ (Transfer demoChain "aa" ⟨"0xR"⟩).2 := by
  have hb : (Bits 7).length ≠ 0 := by
    rw [Ne, Bits_length_eq_zero_iff]; decide
  have ht : Transfer demoChain "aa" ⟨"0xR"⟩ =
      (.ok (),
        [.pubkeyToAddress 101, .chainID, .balanceOf ⟨"0xR"⟩,
         .logTransfer ⟨"0xA"⟩ ⟨"0xR"⟩ 7,
         .transfer ⟨⟨"0xA"⟩, 1, 300000, 20000000000⟩ ⟨"0xR"⟩ 7,
         .logTransferTx "0xf1"]) := by
    simp [Transfer, demoChain, Result.value, hb]
  refine ⟨by decide, ht, ?_⟩
  rw [ht]
  decide

/-! ## Claims on the watcher loop -/

/-- C1, as stated, fails: with the target 2^64 - 1 the stream whose only block
has number 0 holds neither the target nor the target plus one, and the loop
still starts a dispatch. -/
theorem C1_counterexample :
    (2 ^ 64 - 1 ∉ [0] ∧ 2 ^ 64 - 1 + 1 ∉ [0]) ∧
      dispatches (SubscribingLoop (2 ^ 64 - 1) ["k1"] (okStream [0])).2 =
        [(0, [Task.Claim "k1"])] := by
  refine ⟨by decide, ?_⟩
  rw [dispatches_loop_okStream _ _ _ (by decide)]
  decide

/-- C1, amended: for a 64-bit target `T` and a stream of resolvable headers
with 64-bit block numbers, a strictly increasing stream that holds `T` and
`T + 1` starts exactly two dispatch events, at `T` and then at `T + 1`, each
launching one `Claim` per wallet key; and a stream that holds neither `T` nor
`(T + 1) mod 2^64` starts none. -/
theorem C1_watcher_dispatch (T : Nat) (keys : List String) (hs : List Nat)
    (hb : ∀ h ∈ hs, h < 2 ^ 64) :
    (hs.Pairwise (· < ·) → T ∈ hs → T + 1 ∈ hs →
        dispatches (SubscribingLoop T keys (okStream hs)).2 =
          [(T, keys.map Task.Claim), (T + 1, keys.map Task.Claim)]) ∧
      (T ∉ hs → (T + 1) % 2 ^ 64 ∉ hs →
        dispatches (SubscribingLoop T keys (okStream hs)).2 = []) := by
  constructor
  · intro hp h1 h2
    have hlt : T + 1 < 2 ^ 64 := hb _ h2
    rw [dispatches_loop_okStream T keys hs hb, Nat.mod_eq_of_lt hlt,
      filter_target_sorted T hs hp h1 h2]
    rfl
  · intro h1 h2
    rw [dispatches_loop_okStream T keys hs hb]
    have hnil : hs.filter (fun h => decide (h = T ∨ h = (T + 1) % 2 ^ 64)) = [] := by
      rw [List.filter_eq_nil_iff]
      intro a ha
      simp only [decide_eq_true_eq]
      rintro (rfl | rfl)
      · exact h1 ha
      · exact h2 ha
    rw [hnil]
    rfl

/-- Witness for C1: at the target 100 with two wallet keys:
the stream 98, 99, 100, 101 gives two dispatches, the stream 99, 99, 99 none. -/
theorem C1_watcher_dispatch_witness :
    dispatches (SubscribingLoop 100 ["k1", "k2"] (okStream [98, 99, 100, 101])).2 =
        [(100, [Task.Claim "k1", Task.Claim "k2"]), (101, [Task.Claim "k1", Task.Claim "k2"])] ∧
      dispatches (SubscribingLoop 100 ["k1", "k2"] (okStream [99, 99, 99])).2 = [] :=
  ⟨(C1_watcher_dispatch 100 ["k1", "k2"] [98, 99, 100, 101] (by decide)).1
      (by decide) (by decide) (by decide),
    (C1_watcher_dispatch 100 ["k1", "k2"] [99, 99, 99] (by decide)).2 (by decide) (by decide)⟩

/-- C2, as stated, fails: when the stream delivers two headers of the target
height 100, the loop starts two dispatch events for height 100. -/
theorem C2_counterexample :
    ¬ (((dispatches (SubscribingLoop 100 ["k1"] (okStream [100, 100])).2).map Prod.fst).count
        100 ≤ 1) := by
  rw [dispatch_heights_okStream _ _ _ (by decide)]
  decide

/-- C2, amended: for every target `T` and every stream of resolvable headers,
the number of dispatch events the loop starts for height `T` equals the number
of delivered headers whose block number, read as a `uint64`, is `T`, and the
number it starts for the retry height `(T + 1) mod 2^64` equals the number of
delivered headers whose `uint64` block number is that height: each delivered
header of a matched height starts a dispatch of its own.  Hence, when no
`uint64` block number is delivered twice, at most one dispatch is started for
height `T` and at most one for height `T + 1`. -/
theorem C2_dispatch_count (T : Nat) (keys : List String) (hs : List Nat) :
    ((dispatches (SubscribingLoop T keys (okStream hs)).2).map Prod.fst).count T =
        (hs.map (fun n => n % 2 ^ 64)).count T ∧
      ((dispatches (SubscribingLoop T keys (okStream hs)).2).map Prod.fst).count
          ((T + 1) % 2 ^ 64) =
        (hs.map (fun n => n % 2 ^ 64)).count ((T + 1) % 2 ^ 64) ∧
      ((hs.map (fun n => n % 2 ^ 64)).Nodup →
        ((dispatches (SubscribingLoop T keys (okStream hs)).2).map Prod.fst).count T ≤ 1 ∧
          ((dispatches (SubscribingLoop T keys (okStream hs)).2).map Prod.fst).count (T + 1)
            ≤ 1) := by
  rw [dispatch_heights_uint64 T keys hs]
  refine ⟨?_, ?_, ?_⟩
  · exact List.count_filter (by simp)
  · exact List.count_filter (by simp)
  · intro hnd
    have hn : ((hs.map (fun n => n % 2 ^ 64)).filter
        (fun h => decide (h = T ∨ h = (T + 1) % 2 ^ 64))).Nodup := hnd.filter _
    exact ⟨List.nodup_iff_count_le_one.1 hn T, List.nodup_iff_count_le_one.1 hn (T + 1)⟩

/-- Witness for C2: at the target 100, the stream 99, 100, 101, 102 delivers no
height twice and gets one dispatch for 100 and one for 101; the stream
100, 2^64 + 100, whose two block numbers are both 100 as `uint64`, gets two
dispatches for 100. -/
theorem C2_dispatch_count_witness :
    (((dispatches (SubscribingLoop 100 ["k1"] (okStream [99, 100, 101, 102])).2).map
            Prod.fst).count 100 ≤ 1 ∧
        ((dispatches (SubscribingLoop 100 ["k1"] (okStream [99, 100, 101, 102])).2).map
            Prod.fst).count (100 + 1) ≤ 1) ∧
      ((dispatches (SubscribingLoop 100 ["k1"] (okStream [100, 2 ^ 64 + 100])).2).map
          Prod.fst).count 100 = 2 :=
  ⟨(C2_dispatch_count 100 ["k1"] [99, 100, 101, 102]).2.2 (by decide),
    (C2_dispatch_count 100 ["k1"] [100, 2 ^ 64 + 100]).1.trans (by decide)⟩

/-- C10: for a 64-bit target `T` and a 64-bit block number `h`, the loop starts
a dispatch on `h` exactly when `h = T` or `h = (T + 1) mod 2^64`; the retry
number wraps around, so for `T = 2^64 - 1` the dispatch on block 0 is started
and announces the number 0. -/
theorem C10_dispatch_iff (T h : Nat) (keys : List String) (hT : T < 2 ^ 64)
    (hh : h < 2 ^ 64) :
    (dispatches (SubscribingLoop T keys [HeadEvent.header (.ok h)]).2 ≠ [] ↔
        (h = T ∨ h = (T + 1) % 2 ^ 64)) ∧
      ((T = 2 ^ 64 - 1 → (T + 1) % 2 ^ 64 = 0) ∧
        dispatches (SubscribingLoop (2 ^ 64 - 1) keys [HeadEvent.header (.ok 0)]).2 =
          [(0, keys.map Task.Claim)]) := by
  have hone : ∀ (t n : Nat), n < 2 ^ 64 →
      dispatches (SubscribingLoop t keys [HeadEvent.header (.ok n)]).2 =
        if n = t ∨ n = (t + 1) % 2 ^ 64 then [(n, keys.map Task.Claim)] else [] := by
    intro t n hn
    have hs : (SubscribingLoop t keys [HeadEvent.header (.ok n)]).2 = onBlock t keys n ++ [] :=
      rfl
    rw [hs, List.append_nil, dispatches_onBlock t keys n hn]
  refine ⟨?_, ?_, ?_⟩
  · rw [hone T h hh]
    by_cases hc : h = T ∨ h = (T + 1) % 2 ^ 64
    · rw [if_pos hc]
      exact ⟨fun _ => hc, fun _ => List.cons_ne_nil _ _⟩
    · rw [if_neg hc]
      exact ⟨fun hne => absurd rfl hne, fun hp => absurd hp hc⟩
  · intro h1
    subst h1
    decide
  · rw [hone _ 0 (by decide), if_pos (Or.inr (by decide))]

/-- Witness for C10: at the largest target and block number 0. -/
theorem C10_dispatch_iff_witness :
    2 ^ 64 - 1 < 2 ^ 64 ∧ 0 < 2 ^ 64 ∧
      ((dispatches (SubscribingLoop (2 ^ 64 - 1) ["k1"] [HeadEvent.header (.ok 0)]).2 ≠ [] ↔
          (0 = 2 ^ 64 - 1 ∨ 0 = (2 ^ 64 - 1 + 1) % 2 ^ 64)) ∧
        ((2 ^ 64 - 1 = 2 ^ 64 - 1 → (2 ^ 64 - 1 + 1) % 2 ^ 64 = 0) ∧
          dispatches (SubscribingLoop (2 ^ 64 - 1) ["k1"] [HeadEvent.header (.ok 0)]).2 =
            [(0, ["k1"].map Task.Claim)])) :=
  ⟨by decide, by decide, C10_dispatch_iff (2 ^ 64 - 1) 0 ["k1"] (by decide) (by decide)⟩

/-! ## Claims on goroutine launches -/

/-- C6, as stated, fails: a dispatch over three wallet keys hands no
submission result back to the launching code, not three. -/
theorem C6_counterexample :
    (rangeGo ["k1", "k2", "k3"] Task.Claim).collected.length ≠ 3 := by
  decide

/-- C6, amended: for every list of wallet keys, one dispatch launches exactly
one goroutine per key, in list order, whatever the submissions do later; the
values the goroutines return are dropped, so no result is handed back. -/
theorem C6_one_launch_per_wallet (keys : List String) (f : String → Task) :
    (rangeGo keys f).launched = keys.map f ∧
      (rangeGo keys f).launched.length = keys.length ∧
      (rangeGo keys f).collected = [] := by
  refine ⟨rangeGo_launched keys f, ?_, rangeGo_collected keys f⟩
  rw [rangeGo_launched, List.length_map]

/-! ## Claims on `main` -/

/-- C3, as stated, fails: with the unrecognised mode "bogus" as `os.Args[2]`
and every start-up step succeeding, `main` dials both nodes, creates both
contract bindings and returns; it does not end in the usage error. -/
theorem C3_counterexample :
    main ["arbitrum-claim", "run", "bogus"] demoHost =
        (Exit.returned,
          [.godotenvLoad, .dial "wss://eth", .dial "http://arb",
           .newArbitrumProxy ⟨"0xPROXY"⟩, .newTokenDistributor ⟨"0xDIST"⟩]) ∧
      (main ["arbitrum-claim", "run", "bogus"] demoHost).1 ≠ Exit.usage ∧
      (main ["arbitrum-claim", "run", "bogus"] demoHost).2.any Event.isConnection = true := by
  decide

/-- C3, amended: for every mode name other than "live", "claim" and
"transfer" read from `os.Args[2]`, `main` does not end in the usage error and
starts no mode (no subscription, no dispatch, no goroutine), whatever the
start-up steps answer; the mode name is inspected only after the connections,
so when the environment load, both dials and both contract bindings succeed
`main` performs exactly these and returns. -/
theorem C3_unrecognised_mode (args : List String) (host : Host) (mode : String)
    (hmode : args[2]? = some mode) (h1 : mode ≠ "live") (h2 : mode ≠ "claim")
    (h3 : mode ≠ "transfer") :
    (main args host).1 ≠ Exit.usage ∧
      (∀ e ∈ (main args host).2, e.startsMode = false) ∧
      (host.godotenvLoad = .ok () → host.Dial host.config.EthRpcWss = .ok () →
        host.Dial host.config.ArbRpcHttp = .ok () →
        host.NewArbitrumProxy (HexToAddress host.config.ContractAddressArbitrumProxy) = .ok () →
        host.NewTokenDistributor (HexToAddress host.config.ContractAddressTokenDistributor)
          = .ok () →
        main args host = (Exit.returned, setupEvents host.config)) := by
  have hlen : args.length ≠ 2 := by
    intro h
    have : args[2]? = none := List.getElem?_eq_none (by omega)
    rw [this] at hmode
    exact Option.noConfusion hmode
  unfold main
  rw [if_neg hlen]
  simp only [hmode]
  cases hl : host.godotenvLoad with
  | err m => simp [Event.startsMode]
  | ok u =>
    cases hd1 : host.Dial host.config.EthRpcWss with
    | err m => simp [Event.startsMode]
    | ok u1 =>
      cases hd2 : host.Dial host.config.ArbRpcHttp with
      | err m => simp [Event.startsMode]
      | ok u2 =>
        cases hp : host.NewArbitrumProxy (HexToAddress host.config.ContractAddressArbitrumProxy) with
        | err m => simp [Event.startsMode]
        | ok u3 =>
          cases hq : host.NewTokenDistributor
              (HexToAddress host.config.ContractAddressTokenDistributor) with
          | err m => simp [Event.startsMode]
          | ok u4 => simp [h1, h2, h3, Event.startsMode, setupEvents]

/-- Witness for C3: at the mode "bogus" on `demoHost`. -/
theorem C3_unrecognised_mode_witness :
    (main ["arbitrum-claim", "run", "bogus"] demoHost).1 ≠ Exit.usage ∧
      (∀ e ∈ (main ["arbitrum-claim", "run", "bogus"] demoHost).2, e.startsMode = false) ∧
      main ["arbitrum-claim", "run", "bogus"] demoHost =
        (Exit.returned, setupEvents demoHost.config) :=
  have h := C3_unrecognised_mode ["arbitrum-claim", "run", "bogus"] demoHost "bogus" rfl
    (by decide) (by decide) (by decide)
  ⟨h.1, h.2.1, h.2.2 rfl rfl rfl rfl rfl⟩

/-- C7, as stated, fails: invoked with the mode name as its single argument,
`main` ends in the usage error for each of the three names and starts
nothing. -/
theorem C7_counterexample :
    main ["arbitrum-claim", "live"] demoHost = (Exit.usage, []) ∧
      main ["arbitrum-claim", "claim"] demoHost = (Exit.usage, []) ∧
      main ["arbitrum-claim", "transfer"] demoHost = (Exit.usage, []) := by
  decide

/-- C7, amended: when the mode name is the second command-line argument
(`os.Args[2]`) and the environment load, both dials and both contract
bindings succeed, `main` runs the corresponding mode: "live" calls
`Subscribing`, "claim" launches one `Claim` per configured wallet key and
returns, and "transfer" launches one `Transfer` per configured wallet key
with the configured receive address and returns. -/
theorem C7_mode_dispatch (args : List String) (host : Host) (mode : String)
    (hmode : args[2]? = some mode)
    (hl : host.godotenvLoad = .ok ()) (hd1 : host.Dial host.config.EthRpcWss = .ok ())
    (hd2 : host.Dial host.config.ArbRpcHttp = .ok ())
    (hp : host.NewArbitrumProxy (HexToAddress host.config.ContractAddressArbitrumProxy)
      = .ok ())
    (hq : host.NewTokenDistributor (HexToAddress host.config.ContractAddressTokenDistributor)
      = .ok ()) :
    (mode = "live" →
        main args host =
          ((Subscribing host host.config).1,
            setupEvents host.config ++ [Event.logMode "Live"] ++
              (Subscribing host host.config).2)) ∧
      (mode = "claim" →
        main args host =
          (Exit.returned,
            setupEvents host.config ++ [Event.logMode "Claim"] ++
              host.config.WalletPrivateKeys.map (fun v => Event.go (Task.Claim v)))) ∧
      (mode = "transfer" →
        main args host =
          (Exit.returned,
            setupEvents host.config ++ [Event.logMode "Transfer"] ++
              host.config.WalletPrivateKeys.map
                (fun v => Event.go (Task.Transfer v (HexToAddress host.config.ReceiveAddress))))) := by
  have hlen : args.length ≠ 2 := by
    intro h
    have : args[2]? = none := List.getElem?_eq_none (by omega)
    rw [this] at hmode
    exact Option.noConfusion hmode
  unfold main
  rw [if_neg hlen]
  simp only [hmode, hl, hd1, hd2, hp, hq]
  refine ⟨?_, ?_, ?_⟩
  · intro hm
    subst hm
    simp [setupEvents]
  · intro hm
    subst hm
    simp [setupEvents, rangeGo_launched]
  · intro hm
    subst hm
    simp [setupEvents, rangeGo_launched]

/-- Witness for C7: on `demoHost` with the mode as second argument. -/
theorem C7_mode_dispatch_witness :
    main ["arbitrum-claim", "run", "live"] demoHost =
        ((Subscribing demoHost demoHost.config).1,
          setupEvents demoHost.config ++ [Event.logMode "Live"] ++
            (Subscribing demoHost demoHost.config).2) ∧
      main ["arbitrum-claim", "run", "claim"] demoHost =
        (Exit.returned,
          setupEvents demoHost.config ++ [Event.logMode "Claim"] ++
            demoHost.config.WalletPrivateKeys.map (fun v => Event.go (Task.Claim v))) ∧
      main ["arbitrum-claim", "run", "transfer"] demoHost =
        (Exit.returned,
          setupEvents demoHost.config ++ [Event.logMode "Transfer"] ++
            demoHost.config.WalletPrivateKeys.map
              (fun v => Event.go (Task.Transfer v (HexToAddress demoHost.config.ReceiveAddress)))) :=
  ⟨(C7_mode_dispatch ["arbitrum-claim", "run", "live"] demoHost "live" rfl rfl rfl rfl rfl
      rfl).1 rfl,
    (C7_mode_dispatch ["arbitrum-claim", "run", "claim"] demoHost "claim" rfl rfl rfl rfl rfl
      rfl).2.1 rfl,
    (C7_mode_dispatch ["arbitrum-claim", "run", "transfer"] demoHost "transfer" rfl rfl rfl rfl
      rfl rfl).2.2 rfl⟩

end ArbitrumClaim
